import Mathlib

/-!
Shallow embedding of the UPICONNECT job-matching application
(domain wrapper functions in `src/domain/jobs/jobService.ts`, the
registration services, the page-controller handlers, and the
`POST /api/notifications/application-accepted` route handler).

Modelling conventions:
* the remote record store is a `StoreState` of row lists; a store call
  that may fail takes an extra `Option String` argument standing for the
  error the store reports (`none` = success); a reported error means the
  store applied no change, matching the query API's semantics;
* serial ids and `now()` timestamps chosen by the store are passed in as
  explicit arguments;
* a TypeScript function that may `throw` returns `Except String α`
  (the `String` is the thrown `Error`'s message) paired with the store
  state after the call.
-/

namespace Upconnect

/-- Row of the `jobs` table (schema in the jobService.ts header comment). -/
structure JobRow where
  id : Nat
  recruiter_id : String
  title : String
  position : String
  description : Option String
  degree_required : Option String
  salary : Option Int
  available_slots : Int
  status : String
  created_at : Nat
deriving DecidableEq, Repr

/-- Row of the `applications` table. -/
structure ApplicationRow where
  id : Nat
  job_id : Nat
  student_id : String
  status : String
  applied_at : Nat
deriving DecidableEq, Repr

/-- Row of the `messages` table. -/
structure MessageRow where
  id : Nat
  recruiter_id : String
  student_id : String
  job_id : Nat
  content : String
  sender_type : String
  created_at : Nat
deriving DecidableEq, Repr

/-- Row of the `students` table (fields written by `registerStudent`). -/
structure StudentRow where
  id : String
  first_name : String
  last_name : String
  enrollment_number : String
deriving DecidableEq, Repr

/-- Row of the `recruiters` table (fields written by `registerRecruiter`). -/
structure RecruiterRow where
  id : String
  company_name : String
  position : Option String
  contact_email : String
deriving DecidableEq, Repr

/-- The record store: one list per table touched by the modelled code. -/
structure StoreState where
  jobs : List JobRow
  applications : List ApplicationRow
  messages : List MessageRow
  students : List StudentRow
  recruiters : List RecruiterRow
deriving DecidableEq, Repr

/-- Input type `CreateJobInput` from jobService.ts; optional fields are `Option`. -/
structure CreateJobInput where
  recruiterId : String
  title : String
  position : String
  description : Option String
  degreeRequired : Option String
  salary : Option Int
  availableSlots : Option Int
deriving DecidableEq, Repr

/-- Function `createJob` (jobService.ts): inserts into `jobs` with
`available_slots = availableSlots ?? 1` and returns the created row.
The store assigns `newId` and `now`; defaults `status = 'ABIERTA'`.
On a store error the inner `throw new Error('JOB_CREATE_ERROR: ' + msg)`
is caught by the function's own `catch`, which wraps the message once
more, so the thrown message carries the prefix twice. -/
def createJob (st : StoreState) (input : CreateJobInput) (newId now : Nat)
    (storeError : Option String) : Except String JobRow × StoreState :=
  match storeError with
  | some m =>
      (Except.error ("JOB_CREATE_ERROR: " ++ ("JOB_CREATE_ERROR: " ++ m)), st)
  | none =>
      let row : JobRow :=
        { id := newId
          recruiter_id := input.recruiterId
          title := input.title
          position := input.position
          description := input.description
          degree_required := input.degreeRequired
          salary := input.salary
          available_slots := (input.availableSlots.getD 1)
          status := "ABIERTA"
          created_at := now }
      (Except.ok row, { st with jobs := st.jobs ++ [row] })

/-- Function `updateJobAvailability` (jobService.ts): `update({available_slots}).eq('id', jobId)`.
No validation of the new count; the catch block doubles the error prefix. -/
def updateJobAvailability (st : StoreState) (jobId : Nat) (availableSlots : Int)
    (storeError : Option String) : Except String Unit × StoreState :=
  match storeError with
  | some m =>
      (Except.error ("JOB_AVAILABILITY_ERROR: " ++ ("JOB_AVAILABILITY_ERROR: " ++ m)), st)
  | none =>
      (Except.ok (),
        { st with jobs := st.jobs.map (fun j =>
            if j.id = jobId then { j with available_slots := availableSlots } else j) })

/-- Function `applyToJob` (jobService.ts): insert into `applications`; the store's
unique(job_id, student_id) violation surfaces as `storeError`. -/
def applyToJob (st : StoreState) (jobId : Nat) (studentId : String) (newId now : Nat)
    (storeError : Option String) : Except String ApplicationRow × StoreState :=
  match storeError with
  | some m =>
      (Except.error ("JOB_APPLICATION_ERROR: " ++ ("JOB_APPLICATION_ERROR: " ++ m)), st)
  | none =>
      let row : ApplicationRow :=
        { id := newId, job_id := jobId, student_id := studentId
          status := "POSTULADO", applied_at := now }
      (Except.ok row, { st with applications := st.applications ++ [row] })

/-- Function `setApplicationStatus` (jobService.ts): `update({status}).eq('id', applicationId)`.
No check of the current status and no check of the status value itself;
the catch block doubles the error prefix. -/
def setApplicationStatus (st : StoreState) (applicationId : Nat) (status : String)
    (storeError : Option String) : Except String Unit × StoreState :=
  match storeError with
  | some m =>
      (Except.error ("APPLICATION_STATUS_ERROR: " ++ ("APPLICATION_STATUS_ERROR: " ++ m)), st)
  | none =>
      (Except.ok (),
        { st with applications := st.applications.map (fun a =>
            if a.id = applicationId then { a with status := status } else a) })

/-- A UI status message, as kept in the pages' `message` state. -/
structure UiMessage where
  type : String
  text : String
deriving DecidableEq, Repr

/-- Outcome of the page's `fetch("/api/notifications/application-accepted")`:
an ok response carrying `{applicationId, studentEmail}`, a non-ok
response, or a thrown network error. -/
inductive NotifyOutcome where
  | success (applicationId : Nat) (studentEmail : String)
  | httpError
  | threw
deriving DecidableEq, Repr

/-- JavaScript `String.prototype.includes` on character lists. -/
def listIncludes (pat : List Char) : List Char → Bool
  | [] => pat.isEmpty
  | c :: t => pat.isPrefixOf (c :: t) || listIncludes pat t

/-- JavaScript `s.includes(pat)` for strings. -/
def strIncludes (s pat : String) : Bool :=
  listIncludes pat.data s.data

/-- Handler `handleSetStatus` of the applications page: calls
`setApplicationStatus`; on success and target `"ACEPTADO"` it POSTs to
the notification endpoint and, whatever that call's outcome, sets a
`success` message; the stored status is never touched again. On failure
it maps the thrown message to an error message. -/
def handleSetStatus (st : StoreState) (applicationId : Nat) (status : String)
    (storeError : Option String) (notify : NotifyOutcome) :
    StoreState × Option UiMessage :=
  match setApplicationStatus st applicationId status storeError with
  | (Except.error m, st') =>
      (st',
        some { type := "error"
               text := if strIncludes m "APPLICATION_STATUS_ERROR" then
                         "No se pudo actualizar el estado del postulante."
                       else m })
  | (Except.ok _, st') =>
      if status = "ACEPTADO" then
        match notify with
        | NotifyOutcome.success appId email =>
            (st', some { type := "success"
                         text := "Estado actualizado. Se notifico a " ++ email ++
                           " (ID postulacion " ++ toString appId ++ ")." })
        | NotifyOutcome.httpError =>
            (st', some { type := "success"
                         text := "Estado actualizado, pero no se pudo enviar la notificacion por correo." })
        | NotifyOutcome.threw =>
            (st', some { type := "success"
                         text := "Estado actualizado, pero hubo un error al enviar la notificacion." })
      else
        (st', some { type := "success", text := "Estado del postulante actualizado." })

/-- Handler `handleDeleteJob` of the recruiter dashboard
(`dashboard/recruiter/page.tsx`): deletes the `jobs` row, then issues a
second delete against `applications` rows with the same `job_id`; an
error of the second delete is only logged. `messages` is never touched. -/
def handleDeleteJobDashboard (st : StoreState) (jobId : Nat)
    (jobDelError appsDelError : Option String) : StoreState × Option UiMessage :=
  match jobDelError with
  | some _ =>
      (st, some { type := "error"
                  text := "No fue posible eliminar la vacante. Intenta de nuevo." })
  | none =>
      let st1 := { st with jobs := st.jobs.filter (fun j => j.id ≠ jobId) }
      let st2 :=
        match appsDelError with
        | some _ => st1
        | none =>
            { st1 with applications := st1.applications.filter (fun a => a.job_id ≠ jobId) }
      (st2, some { type := "success", text := "Vacante eliminada correctamente." })

/-- Handler `handleDeleteJob` of the job detail page
(`dashboard/recruiter/jobs/[id]/page.tsx`): deletes only the `jobs` row;
no second delete against `applications` is issued there. -/
def handleDeleteJobDetail (st : StoreState) (jobId : Nat)
    (jobDelError : Option String) : StoreState × Option UiMessage :=
  match jobDelError with
  | some _ =>
      (st, some { type := "error"
                  text := "No fue posible eliminar la vacante. Intenta de nuevo." })
  | none =>
      ({ st with jobs := st.jobs.filter (fun j => j.id ≠ jobId) },
        some { type := "success", text := "Vacante eliminada correctamente." })

/-- Comparison the store applies for `.order("created_at", { ascending: true })`. -/
def byCreatedAt (a b : MessageRow) : Bool :=
  a.created_at ≤ b.created_at

/-- Function `loadConversationMessages` of the recruiter messages page: select all
`messages` rows matching the (recruiter, student, job) triple, ordered by
`created_at` ascending; no limit or pagination. -/
def loadConversationMessagesRecruiter (msgs : List MessageRow)
    (recruiterId studentId : String) (jobId : Nat) : List MessageRow :=
  (msgs.filter (fun m =>
    m.recruiter_id = recruiterId ∧ m.student_id = studentId ∧ m.job_id = jobId)).mergeSort
    byCreatedAt

/-- Function `loadConversationMessages` of the student messages page: same triple
filter (written in a different `.eq` order), same ascending order. -/
def loadConversationMessagesStudent (msgs : List MessageRow)
    (studentId : String) (jobId : Nat) (recruiterId : String) : List MessageRow :=
  (msgs.filter (fun m =>
    m.student_id = studentId ∧ m.job_id = jobId ∧ m.recruiter_id = recruiterId)).mergeSort
    byCreatedAt

/-- Input type `RegisterStudentInput` from the students domain service. -/
structure RegisterStudentInput where
  email : String
  password : String
  firstName : String
  lastName : String
  enrollmentNumber : String
deriving DecidableEq, Repr

/-- Function `registerStudent`: sign-up first (`authError` / returned `userId`
model the identity collaborator's answer), then insert the profile row
keyed by the returned user id. No try/catch here, so prefixes are single. -/
def registerStudent (input : RegisterStudentInput) (authError : Option String)
    (userId : Option String) (students : List StudentRow)
    (insertError : Option String) : Except String String × List StudentRow :=
  match authError with
  | some m => (Except.error ("AUTH_ERROR: " ++ m), students)
  | none =>
      match userId with
      | none => (Except.error "AUTH_ERROR: no user id returned after signUp", students)
      | some uid =>
          match insertError with
          | some m => (Except.error ("STUDENT_INSERT_ERROR: " ++ m), students)
          | none =>
              (Except.ok uid,
                students ++ [{ id := uid
                               first_name := input.firstName
                               last_name := input.lastName
                               enrollment_number := input.enrollmentNumber }])

/-- Input type `RegisterRecruiterInput` from the recruiters domain service. -/
structure RegisterRecruiterInput where
  email : String
  password : String
  companyName : String
  position : Option String
deriving DecidableEq, Repr

/-- Function `registerRecruiter`: same shape as `registerStudent`, writing the
`recruiters` row keyed by the user id returned by sign-up. -/
def registerRecruiter (input : RegisterRecruiterInput) (authError : Option String)
    (userId : Option String) (recruiters : List RecruiterRow)
    (insertError : Option String) : Except String String × List RecruiterRow :=
  match authError with
  | some m => (Except.error ("AUTH_ERROR: " ++ m), recruiters)
  | none =>
      match userId with
      | none => (Except.error "AUTH_ERROR: no user id returned after signUp", recruiters)
      | some uid =>
          match insertError with
          | some m => (Except.error ("RECRUITER_INSERT_ERROR: " ++ m), recruiters)
          | none =>
              (Except.ok uid,
                recruiters ++ [{ id := uid
                                 company_name := input.companyName
                                 position := input.position
                                 contact_email := input.email }])

/-- An identity-collaborator user record, as returned by
`auth.admin.getUserById` (the email can be absent). -/
structure AuthUser where
  id : String
  email : Option String
deriving DecidableEq, Repr

/-- The external outcomes the notification route depends on: errors of
the three store reads, the auth user directory, and the email send. -/
structure NotifyEnv where
  appFetchError : Option String
  userError : Option String
  users : List AuthUser
  jobFetchError : Option String
  sendError : Option String
deriving DecidableEq, Repr

/-- Shape of the `NextResponse.json` replies of the route. -/
structure ApiResponse where
  status : Nat
  errorMsg : Option String
  ok : Bool
  applicationId : Option Nat
  studentEmail : Option String
deriving DecidableEq, Repr

/-- The email handed to the transactional provider. -/
structure SentEmail where
  toAddr : String
  subject : String
deriving DecidableEq, Repr

/-- Route handler for `POST /api/notifications/application-accepted`.
`body = none` models `req.json()` throwing (landing in the outer catch);
`some none` a body without `applicationId`; `some (some n)` the parsed
number. The guard is JavaScript truthiness (`!applicationId`), so the
number 0 is rejected like an absent field. A failed job-title lookup is
only logged: the email is sent with the fallback title `"una vacante"`. -/
def notificationsPOST (body : Option (Option Int))
    (apps : List ApplicationRow) (jobs : List JobRow) (env : NotifyEnv) :
    ApiResponse × Option SentEmail :=
  match body with
  | none =>
      ({ status := 500, errorMsg := some "Error interno en la notificación"
         ok := false, applicationId := none, studentEmail := none }, none)
  | some bodyId =>
      if bodyId = none ∨ bodyId = some 0 then
        ({ status := 400, errorMsg := some "applicationId is required"
           ok := false, applicationId := none, studentEmail := none }, none)
      else
        match env.appFetchError with
        | some _ =>
            ({ status := 500, errorMsg := some "No se pudo cargar la aplicación"
               ok := false, applicationId := none, studentEmail := none }, none)
        | none =>
            match apps.find? (fun a => (a.id : Int) = bodyId.getD 0) with
            | none =>
                ({ status := 404, errorMsg := some "Aplicación no encontrada"
                   ok := false, applicationId := none, studentEmail := none }, none)
            | some app =>
                let emailLookup : Option String :=
                  match env.userError with
                  | some _ => none
                  | none => (env.users.find? (fun (u : AuthUser) => u.id = app.student_id)).bind
                      (fun u => u.email)
                match emailLookup with
                | none =>
                    ({ status := 500
                       errorMsg := some "No se pudo obtener el correo del estudiante"
                       ok := false, applicationId := none, studentEmail := none }, none)
                | some studentEmail =>
                    let jobTitle : String :=
                      match env.jobFetchError with
                      | some _ => "una vacante"
                      | none =>
                          match jobs.find? (fun (j : JobRow) => j.id = app.job_id) with
                          | none => "una vacante"
                          | some j => j.title
                    let mail : SentEmail :=
                      { toAddr := studentEmail
                        subject := "Has sido preseleccionado para " ++ jobTitle }
                    match env.sendError with
                    | some _ =>
                        ({ status := 502
                           errorMsg := some "No se pudo enviar el correo de notificacion"
                           ok := false, applicationId := none, studentEmail := none }, none)
                    | none =>
                        ({ status := 200, errorMsg := none, ok := true
                           applicationId := some app.id
                           studentEmail := some studentEmail }, some mail)

/-! ### Concrete example data used by witnesses and counterexamples -/

/-- Two concrete application rows (ids 42 and 7). -/
def exApps : List ApplicationRow :=
  [{ id := 42, job_id := 1, student_id := "stu-1", status := "POSTULADO", applied_at := 0 },
   { id := 7, job_id := 1, student_id := "stu-2", status := "RECHAZADO", applied_at := 1 }]

/-- A concrete store: one job, two applications, one message. -/
def exStore : StoreState :=
  { jobs := [{ id := 1, recruiter_id := "rec-1", title := "Dev", position := "Jr"
               description := none, degree_required := none, salary := none
               available_slots := 3, status := "ABIERTA", created_at := 0 }]
    applications := exApps
    messages := [{ id := 1, recruiter_id := "rec-1", student_id := "stu-1", job_id := 1
                   content := "hola", sender_type := "RECRUITER", created_at := 5 }]
    students := []
    recruiters := [] }

/-! ### Claims -/

/-- C1: `setApplicationStatus(n, s)` issues one update filtered by `id = n`:
in the resulting store the application rows with id `n` carry status `s`
(other fields untouched), every application row with a different id is
unchanged in place, and no other table is touched. -/
theorem setApplicationStatus_updates_only_target (st : StoreState) (n : Nat) (s : String) :
    (setApplicationStatus st n s none).1 = Except.ok () ∧
    ((setApplicationStatus st n s none).2).applications.length = st.applications.length ∧
    (∀ i (h : i < st.applications.length),
      ((setApplicationStatus st n s none).2).applications.get
          ⟨i, by simpa [setApplicationStatus] using h⟩ =
        (if (st.applications.get ⟨i, h⟩).id = n
          then { st.applications.get ⟨i, h⟩ with status := s }
          else st.applications.get ⟨i, h⟩)) ∧
    ((setApplicationStatus st n s none).2).jobs = st.jobs ∧
    ((setApplicationStatus st n s none).2).messages = st.messages := by
  refine ⟨rfl, by simp [setApplicationStatus], ?_, rfl, rfl⟩
  intro i h
  simp [setApplicationStatus, List.get_eq_getElem, List.getElem_map]

/-- Witness for C1 at id 42, status `"ACEPTADO"`, on the concrete store. -/
theorem setApplicationStatus_updates_only_target_witness :
    (setApplicationStatus exStore 42 "ACEPTADO" none).1 = Except.ok () ∧
    (setApplicationStatus exStore 42 "ACEPTADO" none).2.applications.get ⟨0, by decide⟩ =
      { id := 42, job_id := 1, student_id := "stu-1", status := "ACEPTADO", applied_at := 0 } ∧
    (setApplicationStatus exStore 42 "ACEPTADO" none).2.applications.get ⟨1, by decide⟩ =
      { id := 7, job_id := 1, student_id := "stu-2", status := "RECHAZADO", applied_at := 1 } := by
  have h := setApplicationStatus_updates_only_target exStore 42 "ACEPTADO"
  refine ⟨h.1, ?_, ?_⟩
  · have h0 := h.2.2.1 0 (by decide)
    simpa [exStore, exApps] using h0
  · have h1 := h.2.2.1 1 (by decide)
    simpa [exStore, exApps] using h1

/-- C2: `setApplicationStatus` enforces no transition table: for every
prior status of the row and every target status string (also values
outside the enum), the update succeeds and the row receives the target
status; application logic never rejects a status value on its own. -/
theorem setApplicationStatus_no_guard (st : StoreState) (n : Nat) (s : String) :
    (setApplicationStatus st n s none).1 = Except.ok () ∧
    ∀ a : ApplicationRow, a ∈ st.applications → a.id = n →
      { a with status := s } ∈ (setApplicationStatus st n s none).2.applications := by
  refine ⟨rfl, ?_⟩
  intro a ha hid
  simp only [setApplicationStatus]
  exact List.mem_map.2 ⟨a, ha, by simp [hid]⟩

/-- Witness for C2: a previously rejected application (id 7) is set to a
status outside the enum, and the update goes through. -/
theorem setApplicationStatus_no_guard_witness :
    ({ id := 7, job_id := 1, student_id := "stu-2", status := "CUALQUIER_COSA"
       applied_at := 1 } : ApplicationRow) ∈
      (setApplicationStatus exStore 7 "CUALQUIER_COSA" none).2.applications := by
  have h := setApplicationStatus_no_guard exStore 7 "CUALQUIER_COSA"
  exact h.2 { id := 7, job_id := 1, student_id := "stu-2", status := "RECHAZADO", applied_at := 1 }
    (by simp [exStore, exApps]) rfl

/-- C3: in the accept flow, when the status update succeeds but the
notification POST fails (non-ok response or thrown error), the store is
exactly the one produced by the status update — the rows with the target
id keep status `"ACEPTADO"`, no rollback — and the UI message has type
`"success"`, never `"error"`. -/
theorem handleSetStatus_notify_failure_soft_success (st : StoreState) (n : Nat)
    (notify : NotifyOutcome)
    (hn : notify = NotifyOutcome.httpError ∨ notify = NotifyOutcome.threw) :
    (handleSetStatus st n "ACEPTADO" none notify).1 =
      (setApplicationStatus st n "ACEPTADO" none).2 ∧
    (∀ a : ApplicationRow, a ∈ st.applications → a.id = n →
      { a with status := "ACEPTADO" } ∈
        (handleSetStatus st n "ACEPTADO" none notify).1.applications) ∧
    ((handleSetStatus st n "ACEPTADO" none notify).2).map UiMessage.type = some "success" := by
  have hmem : ∀ a : ApplicationRow, a ∈ st.applications → a.id = n →
      { a with status := "ACEPTADO" } ∈
        (setApplicationStatus st n "ACEPTADO" none).2.applications := by
    intro a ha hid
    simp only [setApplicationStatus]
    exact List.mem_map.2 ⟨a, ha, by simp [hid]⟩
  rcases hn with hn | hn <;> subst hn <;>
    exact ⟨by simp [handleSetStatus, setApplicationStatus], hmem,
      by simp [handleSetStatus, setApplicationStatus]⟩

/-- Witness for C3: id 42 accepted on the concrete store while the
notification POST returns non-ok. -/
theorem handleSetStatus_notify_failure_soft_success_witness :
    (handleSetStatus exStore 42 "ACEPTADO" none NotifyOutcome.httpError).1 =
      (setApplicationStatus exStore 42 "ACEPTADO" none).2 ∧
    ({ id := 42, job_id := 1, student_id := "stu-1", status := "ACEPTADO"
       applied_at := 0 } : ApplicationRow) ∈
      (handleSetStatus exStore 42 "ACEPTADO" none NotifyOutcome.httpError).1.applications ∧
    ((handleSetStatus exStore 42 "ACEPTADO" none NotifyOutcome.httpError).2).map
      UiMessage.type = some "success" := by
  have h := handleSetStatus_notify_failure_soft_success exStore 42 NotifyOutcome.httpError
    (Or.inl rfl)
  exact ⟨h.1,
    h.2.1 { id := 42, job_id := 1, student_id := "stu-1", status := "POSTULADO", applied_at := 0 }
      (by simp [exStore, exApps]) rfl,
    h.2.2⟩

/-- C4: when the insert succeeds, the job record created by `createJob`
has `available_slots` equal to the supplied `availableSlots`, and equal
to 1 when the field is omitted. -/
theorem createJob_available_slots (st : StoreState) (input : CreateJobInput) (newId now : Nat) :
    ∃ r : JobRow, (createJob st input newId now none).1 = Except.ok r ∧
      (∀ v : Int, input.availableSlots = some v → r.available_slots = v) ∧
      (input.availableSlots = none → r.available_slots = 1) := by
  refine ⟨_, rfl, ?_, ?_⟩
  · intro v hv
    simp [hv]
  · intro hnone
    simp [hnone]

/-- Witness for C4: supplied slot count 5 is stored; with the field
omitted the stored count is 1. -/
theorem createJob_available_slots_witness :
    ((createJob exStore
        { recruiterId := "rec-1", title := "T", position := "P", description := none
          degreeRequired := none, salary := none, availableSlots := some 5 }
        2 10 none).1.toOption.map JobRow.available_slots) = some 5 ∧
    ((createJob exStore
        { recruiterId := "rec-1", title := "T", position := "P", description := none
          degreeRequired := none, salary := none, availableSlots := none }
        2 10 none).1.toOption.map JobRow.available_slots) = some 1 := by
  constructor
  · obtain ⟨r, hr, hsome, -⟩ := createJob_available_slots exStore
      { recruiterId := "rec-1", title := "T", position := "P", description := none
        degreeRequired := none, salary := none, availableSlots := some 5 } 2 10
    rw [hr]
    exact congrArg some (hsome 5 rfl)
  · obtain ⟨r, hr, -, hnone⟩ := createJob_available_slots exStore
      { recruiterId := "rec-1", title := "T", position := "P", description := none
        degreeRequired := none, salary := none, availableSlots := none } 2 10
    rw [hr]
    exact congrArg some (hnone rfl)

/-- C5 counterexample: the job detail page's deletion removes only the
`jobs` row; the application with `job_id = 1` survives, so not every
job-deletion operation cascades to `applications`. -/
theorem handleDeleteJobDetail_keeps_applications_cex :
    (handleDeleteJobDetail exStore 1 none).1.jobs = [] ∧
    ({ id := 42, job_id := 1, student_id := "stu-1", status := "POSTULADO"
       applied_at := 0 } : ApplicationRow) ∈
      (handleDeleteJobDetail exStore 1 none).1.applications := by
  constructor
  · simp [handleDeleteJobDetail, exStore]
  · simp [handleDeleteJobDetail, exStore, exApps]

/-- C5 amended: the recruiter dashboard's deletion removes the job row
with id `j` and, via a second delete, every Application row with
`job_id = j`; the job detail page's deletion removes only the job row
and leaves `applications` untouched; neither deletion touches
`messages`. -/
theorem deleteJob_cascade (st : StoreState) (j : Nat) :
    (∀ jb : JobRow, jb ∈ (handleDeleteJobDashboard st j none none).1.jobs ↔
      jb ∈ st.jobs ∧ jb.id ≠ j) ∧
    (∀ a : ApplicationRow, a ∈ (handleDeleteJobDashboard st j none none).1.applications ↔
      a ∈ st.applications ∧ a.job_id ≠ j) ∧
    (handleDeleteJobDashboard st j none none).1.messages = st.messages ∧
    (∀ jb : JobRow, jb ∈ (handleDeleteJobDetail st j none).1.jobs ↔
      jb ∈ st.jobs ∧ jb.id ≠ j) ∧
    (handleDeleteJobDetail st j none).1.applications = st.applications ∧
    (handleDeleteJobDetail st j none).1.messages = st.messages := by
  refine ⟨?_, ?_, rfl, ?_, rfl, rfl⟩
  · intro jb
    simp [handleDeleteJobDashboard, List.mem_filter]
  · intro a
    simp [handleDeleteJobDashboard, List.mem_filter]
  · intro jb
    simp [handleDeleteJobDetail, List.mem_filter]

/-- Witness for the amended C5 on the concrete store: the dashboard
deletion drops the application referencing job 1 and keeps `messages`. -/
theorem deleteJob_cascade_witness :
    ¬ (({ id := 42, job_id := 1, student_id := "stu-1", status := "POSTULADO"
          applied_at := 0 } : ApplicationRow) ∈
        (handleDeleteJobDashboard exStore 1 none none).1.applications) ∧
    (handleDeleteJobDashboard exStore 1 none none).1.messages = exStore.messages := by
  have h := deleteJob_cascade exStore 1
  refine ⟨?_, h.2.2.1⟩
  intro hm
  exact ((h.2.1 _).1 hm).2 rfl

/-- Comparator `byCreatedAt` is transitive (as the store's comparator). -/
theorem byCreatedAt_trans (a b c : MessageRow) :
    byCreatedAt a b → byCreatedAt b c → byCreatedAt a c := by
  simp only [byCreatedAt, decide_eq_true_eq]
  omega

/-- Comparator `byCreatedAt` is total. -/
theorem byCreatedAt_total (a b : MessageRow) : byCreatedAt a b || byCreatedAt b a := by
  simp only [byCreatedAt, Bool.or_eq_true, decide_eq_true_eq]
  omega

/-- C6: for every (recruiter, student, job) triple, both conversation
read operations return exactly the Message rows matching all three key
columns (a permutation of the unrestricted filter — hence no pagination
or size limit) in `created_at` ascending order. -/
theorem loadConversationMessages_spec (msgs : List MessageRow) (r s : String) (j : Nat) :
    (loadConversationMessagesRecruiter msgs r s j).Perm
      (msgs.filter (fun m => m.recruiter_id = r ∧ m.student_id = s ∧ m.job_id = j)) ∧
    (loadConversationMessagesRecruiter msgs r s j).Pairwise
      (fun a b => a.created_at ≤ b.created_at) ∧
    (loadConversationMessagesStudent msgs s j r).Perm
      (msgs.filter (fun m => m.recruiter_id = r ∧ m.student_id = s ∧ m.job_id = j)) ∧
    (loadConversationMessagesStudent msgs s j r).Pairwise
      (fun a b => a.created_at ≤ b.created_at) := by
  have hfilters :
      msgs.filter (fun m => m.student_id = s ∧ m.job_id = j ∧ m.recruiter_id = r) =
        msgs.filter (fun m => m.recruiter_id = r ∧ m.student_id = s ∧ m.job_id = j) := by
    apply List.filter_congr
    intro m _
    simp only [decide_eq_decide]
    tauto
  have hsortRec := List.sorted_mergeSort byCreatedAt_trans byCreatedAt_total
    (msgs.filter (fun m => m.recruiter_id = r ∧ m.student_id = s ∧ m.job_id = j))
  have hsortStu := List.sorted_mergeSort byCreatedAt_trans byCreatedAt_total
    (msgs.filter (fun m => m.student_id = s ∧ m.job_id = j ∧ m.recruiter_id = r))
  refine ⟨?_, ?_, ?_, ?_⟩
  · exact List.mergeSort_perm _ byCreatedAt
  · exact hsortRec.imp (fun h => by simpa [byCreatedAt] using h)
  · exact (List.mergeSort_perm _ byCreatedAt).trans (hfilters ▸ List.Perm.refl _)
  · exact hsortStu.imp (fun h => by simpa [byCreatedAt] using h)

/-- C7: evaluation at the failing input. When the store reports error
`"boom"`, the jobService wrappers throw messages carrying their fixed
prefix twice — the inner `throw new Error(PREFIX + msg)` is re-caught by
the function's own `catch`, which prepends the prefix again — so the
message is not the prefix followed by the store's error message, contrary
to the functions' own JSDoc (`lanza new Error("JOB_CREATE_ERROR: " +
error.message)`). -/
theorem jobService_error_prefix_doubled :
    (createJob exStore
        { recruiterId := "rec-1", title := "T", position := "P", description := none
          degreeRequired := none, salary := none, availableSlots := none }
        2 10 (some "boom")).1 =
      Except.error "JOB_CREATE_ERROR: JOB_CREATE_ERROR: boom" ∧
    ¬ (("JOB_CREATE_ERROR: boom").data.isPrefixOf
        ("JOB_CREATE_ERROR: JOB_CREATE_ERROR: boom").data = true) ∧
    (updateJobAvailability exStore 1 2 (some "boom")).1 =
      Except.error "JOB_AVAILABILITY_ERROR: JOB_AVAILABILITY_ERROR: boom" ∧
    (setApplicationStatus exStore 42 "ACEPTADO" (some "boom")).1 =
      Except.error "APPLICATION_STATUS_ERROR: APPLICATION_STATUS_ERROR: boom" ∧
    (applyToJob exStore 1 "stu-3" 3 11 (some "boom")).1 =
      Except.error "JOB_APPLICATION_ERROR: JOB_APPLICATION_ERROR: boom" := by
  refine ⟨rfl, by decide, rfl, rfl, rfl⟩

/-- C8 counterexample: `updateJobAvailability` overwrites the stored
count unconditionally, so supplying −5 stores a negative slot count. -/
theorem updateJobAvailability_negative_cex :
    ((updateJobAvailability exStore 1 (-5) none).2.jobs.map JobRow.available_slots) = [-5] ∧
    (-5 : Int) < 0 := by
  exact ⟨rfl, by decide⟩

/-- C8 amended: `available_slots` changes only through the explicit
update calls (the application-side operations `setApplicationStatus`,
`applyToJob` and the accept-flow handler never touch the `jobs` table),
and `updateJobAvailability` overwrites the count of the addressed job
with the supplied value unconditionally — including negative values, so
non-negativity is not enforced by application logic. -/
theorem available_slots_only_explicit_updates (st : StoreState) (n jid newId now : Nat)
    (s sid : String) (e : Option String) (v : Int) (notify : NotifyOutcome) :
    (setApplicationStatus st n s e).2.jobs = st.jobs ∧
    (applyToJob st jid sid newId now e).2.jobs = st.jobs ∧
    (handleSetStatus st n s e notify).1.jobs = st.jobs ∧
    (∀ jb : JobRow, jb ∈ (updateJobAvailability st jid v none).2.jobs →
      jb.id = jid → jb.available_slots = v) := by
  refine ⟨?_, ?_, ?_, ?_⟩
  · cases e <;> simp [setApplicationStatus]
  · cases e <;> simp [applyToJob]
  · cases e <;> cases notify <;>
      by_cases hs : s = "ACEPTADO" <;>
      simp [handleSetStatus, setApplicationStatus, hs]
  · intro jb hm hid
    simp only [updateJobAvailability, List.mem_map] at hm
    obtain ⟨a, ha, rfl⟩ := hm
    by_cases h : a.id = jid
    · simp [h]
    · exfalso
      simp [h] at hid


/-- Witness for the amended C8: after `updateJobAvailability` with −5,
job 1's stored count is −5 (and the accept flow left `jobs` alone). -/
theorem available_slots_only_explicit_updates_witness :
    (handleSetStatus exStore 42 "ACEPTADO" none NotifyOutcome.threw).1.jobs = exStore.jobs ∧
    ((updateJobAvailability exStore 1 (-5) none).2.jobs.get ⟨0, by decide⟩).available_slots
      = -5 := by
  have h := available_slots_only_explicit_updates exStore 42 1 2 10 "ACEPTADO" "stu-3" none (-5)
    NotifyOutcome.threw
  refine ⟨h.2.2.1, ?_⟩
  exact h.2.2.2 _ (List.get_mem _ _ _) (by decide)

/-- C9 counterexample: when the job-title lookup fails (`jobErr` set),
the route only logs it, sends the email with the fallback title
`"una vacante"`, and returns the success body with status 200 — not an
error body with status 500 or 502 as the claim requires for a failed
lookup. -/
theorem notificationsPOST_job_lookup_failure_cex :
    notificationsPOST (some (some 42)) exApps []
        { appFetchError := none, userError := none
          users := [{ id := "stu-1", email := some "stu1@alumno.mx" }]
          jobFetchError := some "job fetch failed", sendError := none } =
      ({ status := 200, errorMsg := none, ok := true
         applicationId := some 42, studentEmail := some "stu1@alumno.mx" },
       some { toAddr := "stu1@alumno.mx"
              subject := "Has sido preseleccionado para una vacante" }) := by
  rfl

/-- C9 amended: the route returns 400 when `applicationId` is absent or
falsy (the guard `!applicationId` also rejects 0), 404 when no
application row matches, 500 when the application fetch or the
student-email lookup fails, 502 when the email send fails; a failed
job-title lookup is only logged (the email is sent with a placeholder
title); otherwise it returns the success body with the application's id
and the student's email. -/
theorem notificationsPOST_spec (apps : List ApplicationRow) (jobs : List JobRow)
    (env : NotifyEnv) (n : Int) :
    ((notificationsPOST (some none) apps jobs env).1.status = 400 ∧
      (notificationsPOST (some none) apps jobs env).1.errorMsg.isSome ∧
      (notificationsPOST (some none) apps jobs env).1.ok = false) ∧
    ((notificationsPOST (some (some 0)) apps jobs env).1.status = 400 ∧
      (notificationsPOST (some (some 0)) apps jobs env).1.errorMsg.isSome ∧
      (notificationsPOST (some (some 0)) apps jobs env).1.ok = false) ∧
    (n ≠ 0 → env.appFetchError.isSome →
      (notificationsPOST (some (some n)) apps jobs env).1.status = 500 ∧
      (notificationsPOST (some (some n)) apps jobs env).1.errorMsg.isSome ∧
      (notificationsPOST (some (some n)) apps jobs env).1.ok = false) ∧
    (n ≠ 0 → env.appFetchError = none →
      apps.find? (fun a => (a.id : Int) = n) = none →
      (notificationsPOST (some (some n)) apps jobs env).1.status = 404 ∧
      (notificationsPOST (some (some n)) apps jobs env).1.errorMsg.isSome ∧
      (notificationsPOST (some (some n)) apps jobs env).1.ok = false) ∧
    (∀ app : ApplicationRow, n ≠ 0 → env.appFetchError = none →
      apps.find? (fun a => (a.id : Int) = n) = some app →
      (env.userError.isSome →
        (notificationsPOST (some (some n)) apps jobs env).1.status = 500 ∧
        (notificationsPOST (some (some n)) apps jobs env).1.errorMsg.isSome ∧
        (notificationsPOST (some (some n)) apps jobs env).1.ok = false) ∧
      (env.userError = none →
        ((env.users.find? (fun (u : AuthUser) => u.id = app.student_id)).bind
            (fun u => u.email) = none →
          (notificationsPOST (some (some n)) apps jobs env).1.status = 500 ∧
          (notificationsPOST (some (some n)) apps jobs env).1.errorMsg.isSome ∧
          (notificationsPOST (some (some n)) apps jobs env).1.ok = false) ∧
        (∀ email : String,
          (env.users.find? (fun (u : AuthUser) => u.id = app.student_id)).bind
            (fun u => u.email) = some email →
          (env.sendError.isSome →
            (notificationsPOST (some (some n)) apps jobs env).1.status = 502 ∧
            (notificationsPOST (some (some n)) apps jobs env).1.errorMsg.isSome ∧
            (notificationsPOST (some (some n)) apps jobs env).1.ok = false) ∧
          (env.sendError = none →
            (notificationsPOST (some (some n)) apps jobs env).1 =
              { status := 200, errorMsg := none, ok := true
                applicationId := some app.id, studentEmail := some email })))) := by
  refine ⟨by simp [notificationsPOST], by simp [notificationsPOST], ?_, ?_, ?_⟩
  · intro hn happ
    obtain ⟨m, hm⟩ := Option.isSome_iff_exists.1 happ
    simp [notificationsPOST, hn, hm]
  · intro hn happ hfind
    simp [notificationsPOST, hn, happ, hfind]
  · intro app hn happ hfind
    refine ⟨?_, ?_⟩
    · intro huserSome
      obtain ⟨m, hm⟩ := Option.isSome_iff_exists.1 huserSome
      simp [notificationsPOST, hn, happ, hfind, hm]
    · intro huser
      refine ⟨?_, ?_⟩
      · intro hemail
        simp [notificationsPOST, hn, happ, hfind, huser, hemail]
      · intro email hemail
        refine ⟨?_, ?_⟩
        · intro hsend
          obtain ⟨m, hm⟩ := Option.isSome_iff_exists.1 hsend
          simp [notificationsPOST, hn, happ, hfind, huser, hemail, hm]
        · intro hsend
          simp [notificationsPOST, hn, happ, hfind, huser, hemail, hsend]

/-- Witness for the amended C9: the happy path on concrete data returns
the 200 success body, a concrete absent id returns 400, and a failing
identity lookup (`getUserById` error) returns 500. -/
theorem notificationsPOST_spec_witness :
    (notificationsPOST (some (some 42)) exApps []
        { appFetchError := none, userError := none
          users := [{ id := "stu-1", email := some "stu1@alumno.mx" }]
          jobFetchError := none, sendError := none }).1 =
      { status := 200, errorMsg := none, ok := true
        applicationId := some 42, studentEmail := some "stu1@alumno.mx" } ∧
    (notificationsPOST (some none) exApps []
        { appFetchError := none, userError := none
          users := [], jobFetchError := none, sendError := none }).1.status = 400 ∧
    (notificationsPOST (some (some 42)) exApps []
        { appFetchError := none, userError := some "auth down"
          users := [], jobFetchError := none, sendError := none }).1.status = 500 := by
  have h := notificationsPOST_spec exApps []
    { appFetchError := none, userError := none
      users := [{ id := "stu-1", email := some "stu1@alumno.mx" }]
      jobFetchError := none, sendError := none } 42
  have h400 := notificationsPOST_spec exApps []
    { appFetchError := none, userError := none
      users := [], jobFetchError := none, sendError := none } (42 : Int)
  have h500 := notificationsPOST_spec exApps []
    { appFetchError := none, userError := some "auth down"
      users := [], jobFetchError := none, sendError := none } (42 : Int)
  have happ : exApps.find? (fun a => (a.id : Int) = (42 : Int)) =
      some { id := 42, job_id := 1, student_id := "stu-1", status := "POSTULADO"
             applied_at := 0 } := by decide
  refine ⟨?_, h400.1.1, ?_⟩
  · exact ((((h.2.2.2.2 _ (by decide) rfl happ).2 rfl).2 "stu1@alumno.mx" rfl).2 rfl)
  · exact ((h500.2.2.2.2 _ (by decide) rfl happ).1 rfl).1

/-- C10: `registerStudent` and `registerRecruiter` are atomic with
respect to profile creation: an auth failure (error or missing user id)
yields an `"AUTH_ERROR: "`-prefixed exception with the profile table
unchanged — indeed any thrown exception leaves the table unchanged — and
a profile row is inserted only when sign-up returned a user id, keyed by
exactly that id. -/
theorem register_profile_atomic (si : RegisterStudentInput) (ri : RegisterRecruiterInput)
    (authError : Option String) (userId : Option String)
    (students : List StudentRow) (recruiters : List RecruiterRow)
    (insertError : Option String) :
    (authError.isSome ∨ userId = none →
      (∃ m : String, (registerStudent si authError userId students insertError).1 =
          Except.error m ∧ ("AUTH_ERROR: ").data.isPrefixOf m.data) ∧
      (∃ m : String, (registerRecruiter ri authError userId recruiters insertError).1 =
          Except.error m ∧ ("AUTH_ERROR: ").data.isPrefixOf m.data)) ∧
    (∀ m : String, (registerStudent si authError userId students insertError).1 =
        Except.error m →
      (registerStudent si authError userId students insertError).2 = students) ∧
    ((registerStudent si authError userId students insertError).2 ≠ students →
      ∃ uid : String, authError = none ∧ userId = some uid ∧
        (registerStudent si authError userId students insertError).1 = Except.ok uid ∧
        (registerStudent si authError userId students insertError).2 = students ++
          [{ id := uid, first_name := si.firstName, last_name := si.lastName
             enrollment_number := si.enrollmentNumber }]) ∧
    (∀ m : String, (registerRecruiter ri authError userId recruiters insertError).1 =
        Except.error m →
      (registerRecruiter ri authError userId recruiters insertError).2 = recruiters) ∧
    ((registerRecruiter ri authError userId recruiters insertError).2 ≠ recruiters →
      ∃ uid : String, authError = none ∧ userId = some uid ∧
        (registerRecruiter ri authError userId recruiters insertError).1 = Except.ok uid ∧
        (registerRecruiter ri authError userId recruiters insertError).2 = recruiters ++
          [{ id := uid, company_name := ri.companyName, position := ri.position
             contact_email := ri.email }]) := by
  cases authError with
  | some m0 =>
      refine ⟨fun _ => ?_, ?_, ?_, ?_, ?_⟩
      · exact ⟨⟨"AUTH_ERROR: " ++ m0, rfl, by simp [String.data]⟩,
          ⟨"AUTH_ERROR: " ++ m0, rfl, by simp [String.data]⟩⟩
      · intro m _; rfl
      · intro hne; exact absurd rfl hne
      · intro m _; rfl
      · intro hne; exact absurd rfl hne
  | none =>
      cases userId with
      | none =>
          refine ⟨fun _ => ?_, ?_, ?_, ?_, ?_⟩
          · exact ⟨⟨"AUTH_ERROR: no user id returned after signUp", rfl, by decide⟩,
              ⟨"AUTH_ERROR: no user id returned after signUp", rfl, by decide⟩⟩
          · intro m _; rfl
          · intro hne; exact absurd rfl hne
          · intro m _; rfl
          · intro hne; exact absurd rfl hne
      | some uid =>
          cases insertError with
          | some m1 =>
              refine ⟨?_, ?_, ?_, ?_, ?_⟩
              · rintro (h | h) <;> simp at h
              · intro m _; rfl
              · intro hne; exact absurd rfl hne
              · intro m _; rfl
              · intro hne; exact absurd rfl hne
          | none =>
              refine ⟨?_, ?_, ?_, ?_, ?_⟩
              · rintro (h | h) <;> simp at h
              · intro m hm; exact absurd hm (by simp [registerStudent])
              · intro _; exact ⟨uid, rfl, rfl, rfl, rfl⟩
              · intro m hm; exact absurd hm (by simp [registerRecruiter])
              · intro _; exact ⟨uid, rfl, rfl, rfl, rfl⟩

/-- Witness for C10: concrete auth failure leaves the `students` table
unchanged while throwing an `"AUTH_ERROR: "`-prefixed message; the
concrete happy path inserts the row keyed by the returned user id. -/
theorem register_profile_atomic_witness :
    (registerStudent
        { email := "a@b.mx", password := "pw", firstName := "Ana", lastName := "B"
          enrollmentNumber := "2020630001" }
        (some "signup down") none [] none).2 = [] ∧
    (registerStudent
        { email := "a@b.mx", password := "pw", firstName := "Ana", lastName := "B"
          enrollmentNumber := "2020630001" }
        none (some "uid-1") [] none).2 =
      [{ id := "uid-1", first_name := "Ana", last_name := "B"
         enrollment_number := "2020630001" }] := by
  have h1 := register_profile_atomic
    { email := "a@b.mx", password := "pw", firstName := "Ana", lastName := "B"
      enrollmentNumber := "2020630001" }
    { email := "r@c.mx", password := "pw", companyName := "C", position := none }
    (some "signup down") none [] [] none
  have h2 := register_profile_atomic
    { email := "a@b.mx", password := "pw", firstName := "Ana", lastName := "B"
      enrollmentNumber := "2020630001" }
    { email := "r@c.mx", password := "pw", companyName := "C", position := none }
    none (some "uid-1") [] [] none
  refine ⟨h1.2.1 "AUTH_ERROR: signup down" rfl, ?_⟩
  obtain ⟨uid, -, huid, -, hrow⟩ := h2.2.2.1 (by decide)
  rw [hrow]
  cases huid
  rfl

end Upconnect
